import Mathlib

/-!
# GATT peripheral service core of the sensor-patch firmware

A shallow embedding of `spatch_ecg.c`, `spatch_hr.c` and the connection
handlers of `main.c`, followed by theorems about the write/read handlers,
the notification gating, the heart-rate counter, callback registration and
the connection indicator.

Conventions of the embedding:

* file-scope `static` variables become fields of a state record that every
  function takes and returns;
* `uint8_t` / `uint16_t` values are `Nat` (a reduction `% 256` is written
  where the C arithmetic can leave the range), `ssize_t` / `int` are `Int`;
* a function pointer that may be `NULL` is an `Option` of a function on the
  application state `α` (everything a callback can read or change);
* calls that leave the module (`bt_gatt_notify`, `bt_hrs_notify`, the LED
  callback) are also recorded, in call order, in ghost lists of the state,
  so that "is called once" and "is not called" can be stated;
* the `conn`, `attr` and `flags` arguments, which the code only prints, and
  the log statements are left out.
-/

namespace Spatch

/-! ## Constants declared in headers outside the repository -/

/-- Modelled from the spec: the `Notify` mode of a configuration-descriptor
write; the macro `BT_GATT_CCC_NOTIFY` is declared in the Bluetooth stack's
`gatt.h`, which is not under `src/` (its value there is 0x0001). -/
def BT_GATT_CCC_NOTIFY : Nat := 0x0001

/-- Modelled from the spec: the `Indicate` mode of a configuration-descriptor
write; the macro `BT_GATT_CCC_INDICATE` is declared in the Bluetooth stack's
`gatt.h`, which is not under `src/` (its value there is 0x0002). -/
def BT_GATT_CCC_INDICATE : Nat := 0x0002

/-- Modelled from the spec: the code of the `InvalidOffset` attribute error;
`BT_ATT_ERR_INVALID_OFFSET` is declared in the stack's `att.h`, which is not
under `src/` (0x07 there). -/
def BT_ATT_ERR_INVALID_OFFSET : Int := 0x07

/-- Modelled from the spec: the code of the `InvalidLength` attribute error;
`BT_ATT_ERR_INVALID_ATTRIBUTE_LEN` is declared in the stack's `att.h`, which
is not under `src/` (0x0d there). -/
def BT_ATT_ERR_INVALID_ATTRIBUTE_LEN : Int := 0x0d

/-- Modelled from the spec: the code of the `ValueNotAllowed` attribute error;
`BT_ATT_ERR_VALUE_NOT_ALLOWED` is declared in the stack's `att.h`, which is
not under `src/` (0x13 there). -/
def BT_ATT_ERR_VALUE_NOT_ALLOWED : Int := 0x13

/-- Modelled from the spec: an attribute error is handed to the transport as
an attribute-protocol error code; the macro `BT_GATT_ERR` of the stack's
`gatt.h` (not under `src/`) turns the code into the negative return value. -/
def BT_GATT_ERR (x : Int) : Int := -x

/-- Modelled from the spec: the permission-style error behind `NotSubscribed`;
`EACCES` comes from `errno.h`, which is not under `src/` (13 there). -/
def EACCES : Int := 13

/-! ## Data model of `spatch_ecg.h` / `spatch_ecg.c` -/

/-- The callback struct `struct bt_ECG_cb`: four function pointers, each
possibly `NULL`.  `led_cb_t` is `void (*)(const bool)`, the three getters
are `uint8_t (*)(void)`; both may touch the application state `α`. -/
structure bt_ECG_cb (α : Type) where
  led_cb : Option (Bool → α → α)
  live_data_cb : Option (α → Nat × α)
  db_data_cb : Option (α → Nat × α)
  motion_data_cb : Option (α → Nat × α)

/-- One call of `bt_gatt_notify(NULL, &ECG_svc.attrs[attr], data, len)`:
the index of the attribute in the service table and the bytes sent. -/
structure NotifyCall where
  attr : Nat
  data : List Nat
  deriving DecidableEq, Repr

/-- The transport's notify primitive `bt_gatt_notify`, which is outside the
repository: given the calls made so far and the present call it answers 0
or a negative error code. -/
abbrev Transport := List NotifyCall → NotifyCall → Int

/-- What an attribute read hands back: the `ssize_t` result and the bytes
copied into the caller's buffer. -/
structure ReadResult where
  ret : Int
  out : List Nat
  deriving DecidableEq, Repr

/-- The transport's `bt_gatt_attr_read(conn, attr, buf, len, offset, value,
value_len)`, which is outside the repository: from the requested length, the
offset and the stored value bytes it produces the result of the read. -/
abbrev AttrRead := Nat → Nat → List Nat → ReadResult

/-- The file-scope state of `spatch_ecg.c` (lines 31-34) together with the
application state the callbacks act on and the ghost call records. -/
structure State (α : Type) where
  cp_indicate_enabled : Bool
  live_notify_enabled : Bool
  db_notify_enabled : Bool
  motion_notify_enabled : Bool
  db_data : Nat
  live_data : Nat
  motion_data : Nat
  ECG_cb : bt_ECG_cb α
  /-- application state seen by the callbacks -/
  app : α
  /-- ghost: arguments of the `led_cb` invocations, oldest first -/
  led_calls : List Bool
  /-- ghost: the `bt_gatt_notify` calls, oldest first -/
  notify_calls : List NotifyCall

/-- The state at start-up: C zero-initialises the statics, so every flag is
`false`, every cache is 0 and every callback pointer is `NULL`. -/
def State.boot {α : Type} (app : α) : State α :=
  { cp_indicate_enabled := false
    live_notify_enabled := false
    db_notify_enabled := false
    motion_notify_enabled := false
    db_data := 0
    live_data := 0
    motion_data := 0
    ECG_cb := { led_cb := none, live_data_cb := none, db_data_cb := none,
                motion_data_cb := none }
    app := app
    led_calls := []
    notify_calls := [] }

/-! ## Configuration-descriptor handlers (`spatch_ecg.c` 36-62) -/

/-- `ECG_cp_ccc_cfg_changed`. -/
def ECG_cp_ccc_cfg_changed {α : Type} (value : Nat) (s : State α) : State α :=
  { s with cp_indicate_enabled := decide (value = BT_GATT_CCC_INDICATE) }

/-- `ECG_live_ccc_cfg_changed`. -/
def ECG_live_ccc_cfg_changed {α : Type} (value : Nat) (s : State α) : State α :=
  { s with live_notify_enabled := decide (value = BT_GATT_CCC_NOTIFY) }

/-- `ECG_db_ccc_cfg_changed`. -/
def ECG_db_ccc_cfg_changed {α : Type} (value : Nat) (s : State α) : State α :=
  { s with db_notify_enabled := decide (value = BT_GATT_CCC_NOTIFY) }

/-- `ECG_motion_ccc_cfg_changed`. -/
def ECG_motion_ccc_cfg_changed {α : Type} (value : Nat) (s : State α) : State α :=
  { s with motion_notify_enabled := decide (value = BT_GATT_CCC_NOTIFY) }

/-! ## Attribute access handlers (`spatch_ecg.c` 64-137) -/

/-- `write_led`: `buf` holds the bytes the peer wrote, `len` their number and
`offset` the write offset.  The byte read through `*((uint8_t *)buf)` is the
first byte of `buf` (the transport hands over `len` bytes, so it is there
once `len` is 1). -/
def write_led {α : Type} (buf : List Nat) (len offset : Nat) (s : State α) :
    Int × State α :=
  if len ≠ 1 then
    (BT_GATT_ERR BT_ATT_ERR_INVALID_ATTRIBUTE_LEN, s)
  else if offset ≠ 0 then
    (BT_GATT_ERR BT_ATT_ERR_INVALID_OFFSET, s)
  else
    match s.ECG_cb.led_cb with
    | some cb =>
      let val := buf.headD 0
      if val = 0x00 ∨ val = 0x01 then
        ((len : Int),
          { s with app := cb (decide (val ≠ 0)) s.app
                   led_calls := s.led_calls ++ [decide (val ≠ 0)] })
      else
        (BT_GATT_ERR BT_ATT_ERR_VALUE_NOT_ALLOWED, s)
    | none => ((len : Int), s)

/-- `read_live`: the attribute's `user_data` is `&live_data` (service table,
line 148) and `sizeof(*value)` is 1, so the value handed to the transport's
read is the one freshly cached byte. -/
def read_live {α : Type} (bt_gatt_attr_read : AttrRead) (len offset : Nat)
    (s : State α) : ReadResult × State α :=
  match s.ECG_cb.live_data_cb with
  | some cb =>
    let r := cb s.app
    let s1 := { s with live_data := r.1, app := r.2 }
    (bt_gatt_attr_read len offset [s1.live_data], s1)
  | none => ({ ret := 0, out := [] }, s)

/-- `read_db`: as `read_live`, on `db_data` (service table, line 152). -/
def read_db {α : Type} (bt_gatt_attr_read : AttrRead) (len offset : Nat)
    (s : State α) : ReadResult × State α :=
  match s.ECG_cb.db_data_cb with
  | some cb =>
    let r := cb s.app
    let s1 := { s with db_data := r.1, app := r.2 }
    (bt_gatt_attr_read len offset [s1.db_data], s1)
  | none => ({ ret := 0, out := [] }, s)

/-- `read_motion`: as `read_live`, on `motion_data` (service table, line 155). -/
def read_motion {α : Type} (bt_gatt_attr_read : AttrRead) (len offset : Nat)
    (s : State α) : ReadResult × State α :=
  match s.ECG_cb.motion_data_cb with
  | some cb =>
    let r := cb s.app
    let s1 := { s with motion_data := r.1, app := r.2 }
    (bt_gatt_attr_read len offset [s1.motion_data], s1)
  | none => ({ ret := 0, out := [] }, s)

/-! ## Registration and sends (`spatch_ecg.c` 159-193) -/

/-- `bt_ECG_init`: the argument is a pointer, `none` standing for `NULL`. -/
def bt_ECG_init {α : Type} (callbacks : Option (bt_ECG_cb α)) (s : State α) :
    Int × State α :=
  match callbacks with
  | some c =>
    (0, { s with ECG_cb := { led_cb := c.led_cb
                             live_data_cb := c.live_data_cb
                             db_data_cb := c.db_data_cb
                             motion_data_cb := c.motion_data_cb } })
  | none => (0, s)

/-- The call `bt_gatt_notify(NULL, &ECG_svc.attrs[attr], &byte, 1)`: the
transport answers, and the call is recorded. -/
def bt_gatt_notify {α : Type} (tr : Transport) (attr : Nat) (data : List Nat)
    (s : State α) : Int × State α :=
  (tr s.notify_calls { attr := attr, data := data },
    { s with notify_calls := s.notify_calls ++ [{ attr := attr, data := data }] })

/-- `bt_ECG_send_live_data`: the parameter (named `live_data` in the code,
hiding the static of that name) is the byte to send. -/
def bt_ECG_send_live_data {α : Type} (tr : Transport) (live_data : Nat)
    (s : State α) : Int × State α :=
  if ¬ s.live_notify_enabled then (-EACCES, s)
  else bt_gatt_notify tr 5 [live_data] s

/-- `bt_ECG_send_db_data`. -/
def bt_ECG_send_db_data {α : Type} (tr : Transport) (db_data : Nat)
    (s : State α) : Int × State α :=
  if ¬ s.db_notify_enabled then (-EACCES, s)
  else bt_gatt_notify tr 8 [db_data] s

/-- `bt_ECG_send_motion_data`. -/
def bt_ECG_send_motion_data {α : Type} (tr : Transport) (motion_data : Nat)
    (s : State α) : Int × State α :=
  if ¬ s.motion_notify_enabled then (-EACCES, s)
  else bt_gatt_notify tr 11 [motion_data] s

/-! ## Sequences of configuration-descriptor writes -/

/-- The four characteristics of the service that own a configuration
descriptor (service table, lines 140-157). -/
inductive Chr where
  | cp
  | live
  | db
  | motion
  deriving DecidableEq, Repr

/-- A peer's write of `value` to the configuration descriptor of `c`: the
transport calls the handler bound to that descriptor in the service table. -/
def ccc_write {α : Type} (c : Chr) (value : Nat) (s : State α) : State α :=
  match c with
  | Chr.cp => ECG_cp_ccc_cfg_changed value s
  | Chr.live => ECG_live_ccc_cfg_changed value s
  | Chr.db => ECG_db_ccc_cfg_changed value s
  | Chr.motion => ECG_motion_ccc_cfg_changed value s

/-- A sequence of configuration writes, applied oldest first. -/
def ccc_writes {α : Type} (ws : List (Chr × Nat)) (s : State α) : State α :=
  ws.foldl (fun st w => ccc_write w.1 w.2 st) s

/-- The value of the most recent configuration write for `c` in `ws`
(oldest first), `none` when `ws` has no write for `c`. -/
def last_ccc_write (c : Chr) (ws : List (Chr × Nat)) : Option Nat :=
  ((ws.filter (fun w => decide (w.1 = c))).getLast?).map Prod.snd

/-! ## The heart-rate adapter (`spatch_hr.c`) -/

/-- The function-local `static uint8_t heartrate` of `hrs_notify`, with the
ghost record of the values passed to `bt_hrs_notify`. -/
structure HrState where
  heartrate : Nat
  hrs_calls : List Nat
  deriving DecidableEq, Repr

/-- The initialiser `static uint8_t heartrate = 90U`. -/
def HrState.boot : HrState := { heartrate := 90, hrs_calls := [] }

/-- `hrs_notify`: `heartrate++` on a `uint8_t`, the wrap at 160, and the
unconditional `bt_hrs_notify(heartrate)`. -/
def hrs_notify (s : HrState) : HrState :=
  let h1 := (s.heartrate + 1) % 256
  let h2 := if h1 = 160 then 90 else h1
  { heartrate := h2, hrs_calls := s.hrs_calls ++ [h2] }

/-- `hrs_notify` called `n` times in a row. -/
def hrs_ticks : Nat → HrState → HrState
  | 0, s => s
  | n + 1, s => hrs_ticks n (hrs_notify s)

/-! ## The application (`main.c`) -/

/-- Modelled from the spec: the connection indicator and the other board
LEDs are simple output capabilities; the indices `DK_LED1..3` are declared
in the board library's `dk_buttons_and_leds.h`, which is not under `src/`
(0, 1 and 2 there). -/
def DK_LED1 : Nat := 0

/-- Modelled from the spec: see `DK_LED1`. -/
def DK_LED2 : Nat := 1

/-- Modelled from the spec: see `DK_LED1`. -/
def DK_LED3 : Nat := 2

/-- `#define RUN_STATUS_LED DK_LED1`. -/
def RUN_STATUS_LED : Nat := DK_LED1

/-- `#define CON_STATUS_LED DK_LED2`. -/
def CON_STATUS_LED : Nat := DK_LED2

/-- `#define USER_LED DK_LED3`. -/
def USER_LED : Nat := DK_LED3

/-- The file-scope state of `main.c` (lines 45-47) and the board's LEDs,
`leds i` telling whether LED `i` is lit. -/
structure Main where
  app_live_state : Nat
  app_db_state : Nat
  app_motion_state : Nat
  leds : Nat → Bool

/-- Modelled from the spec: `dk_set_led(led, val)` of the board library (not
under `src/`) drives one LED and leaves the others as they are. -/
def dk_set_led (led : Nat) (val : Bool) (m : Main) : Main :=
  { m with leds := fun i => if i = led then val else m.leds i }

/-- Modelled from the spec: `dk_set_led_on(led)` of the board library (not
under `src/`) lights one LED. -/
def dk_set_led_on (led : Nat) (m : Main) : Main := dk_set_led led true m

/-- Modelled from the spec: `dk_set_led_off(led)` of the board library (not
under `src/`) puts one LED out. -/
def dk_set_led_off (led : Nat) (m : Main) : Main := dk_set_led led false m

/-- `connected` (`main.c` 59-68). -/
def connected (err : Nat) (m : Main) : Main :=
  if err ≠ 0 then m
  else dk_set_led_on CON_STATUS_LED m

/-- `disconnected` (`main.c` 70-74). -/
def disconnected (reason : Nat) (m : Main) : Main :=
  let _ := reason
  dk_set_led_off CON_STATUS_LED m

/-- `app_led_cb`. -/
def app_led_cb (led_state : Bool) (m : Main) : Main :=
  dk_set_led USER_LED led_state m

/-- `app_live_cb`. -/
def app_live_cb (m : Main) : Nat × Main := (m.app_live_state, m)

/-- `app_db_cb`. -/
def app_db_cb (m : Main) : Nat × Main := (m.app_db_state, m)

/-- `app_motion_cb`. -/
def app_motion_cb (m : Main) : Nat × Main := (m.app_motion_state, m)

/-- The table `ECG_callbacs` that `main` registers (`main.c` 141-146). -/
def ECG_callbacs : bt_ECG_cb Main :=
  { led_cb := some app_led_cb
    live_data_cb := some app_live_cb
    db_data_cb := some app_db_cb
    motion_data_cb := some app_motion_cb }

/-- The application state at start-up: statics zero, every LED dark. -/
def Main.boot : Main :=
  { app_live_state := 0, app_db_state := 0, app_motion_state := 0
    leds := fun _ => false }

/-- The events the transport delivers to the firmware in this development:
a configuration-descriptor write, `connected(err)`, `disconnected(reason)`
(the table `conn_callbacks`, `main.c` 89-93). -/
inductive Event where
  | ccc (c : Chr) (value : Nat)
  | connected (err : Nat)
  | disconnected (reason : Nat)
  deriving DecidableEq, Repr

/-- Delivery of one event: a descriptor write reaches its handler in
`spatch_ecg.c`, a connection event reaches its handler in `main.c`. -/
def step (s : State Main) (e : Event) : State Main :=
  match e with
  | Event.ccc c value => ccc_write c value s
  | Event.connected err => { s with app := connected err s.app }
  | Event.disconnected reason => { s with app := disconnected reason s.app }

/-- Delivery of a sequence of events, oldest first. -/
def run (es : List Event) (s : State Main) : State Main :=
  es.foldl step s

/-- The firmware once `main` has registered `ECG_callbacs` (`main.c` 212). -/
def started : State Main :=
  (bt_ECG_init (some ECG_callbacs) (State.boot Main.boot)).2

/-- The service after registration with `callbacks` at start-up and the
configuration writes `ws` of a peer, oldest first. -/
def after_writes {α : Type} (callbacks : Option (bt_ECG_cb α)) (app : α)
    (ws : List (Chr × Nat)) : State α :=
  ccc_writes ws (bt_ECG_init callbacks (State.boot app)).2

/-- The gating of one send, in the words of the specification: `r` is what
the send of byte `v` returned in state `s`, `attr` the attribute the
characteristic notifies on, `last` the most recent configuration write for
the characteristic.  The send answers `-EACCES` with no transport call
recorded exactly when `last` is not a request for Notify; otherwise the
transport is called once, with payload `[v]`, and its answer is returned. -/
def send_gated {α : Type} (tr : Transport) (attr v : Nat) (last : Option Nat)
    (s : State α) (r : Int × State α) : Prop :=
  ((r.1 = -EACCES ∧ r.2.notify_calls = s.notify_calls)
      ↔ last ≠ some BT_GATT_CCC_NOTIFY)
    ∧ r = if last = some BT_GATT_CCC_NOTIFY then
            (tr s.notify_calls { attr := attr, data := [v] },
              { s with notify_calls :=
                  s.notify_calls ++ [{ attr := attr, data := [v] }] })
          else (-EACCES, s)

/-! ## Sanity checks of the embedding on concrete inputs -/

example : (write_led [1] 1 0 started).1 = 1 := by decide
example : (write_led [1] 1 0 started).2.led_calls = [true] := by decide
example : (write_led [1] 1 0 started).2.app.leds USER_LED = true := by decide
example : (write_led [0] 1 0 started).2.led_calls = [false] := by decide
example : (write_led [7] 1 0 started).1 = -0x13 := by decide
example : (write_led [7] 1 0 (State.boot ())).1 = 1 := by decide
example : (write_led [1, 0] 2 0 started).1 = -0x0d := by decide
example : (write_led [1] 1 4 started).1 = -0x07 := by decide
example : (hrs_ticks 3 HrState.boot) = ⟨93, [91, 92, 93]⟩ := by decide
example : (hrs_notify ⟨159, []⟩) = ⟨90, [90]⟩ := by decide
example : last_ccc_write Chr.live [(Chr.live, 1), (Chr.db, 0)] = some 1 := by decide
example : last_ccc_write Chr.live [(Chr.live, 1), (Chr.live, 0)] = some 0 := by decide
example : last_ccc_write Chr.cp [(Chr.live, 1), (Chr.live, 0)] = none := by decide
example : (bt_ECG_send_live_data (fun _ _ => 0) 5
    (ccc_writes [(Chr.live, 1)] started)).2.notify_calls = [⟨5, [5]⟩] := by decide
example : (bt_ECG_send_live_data (fun _ _ => 0) 5
    (ccc_writes [(Chr.live, 1), (Chr.live, 0)] started)).1 = -13 := by decide

/-! ## Auxiliary lemmas -/

theorem write_led_of_len_ne {α : Type} (buf : List Nat) (len offset : Nat)
    (s : State α) (hlen : len ≠ 1) :
    write_led buf len offset s = (BT_GATT_ERR BT_ATT_ERR_INVALID_ATTRIBUTE_LEN, s) := by
  unfold write_led
  rw [if_pos hlen]

theorem write_led_of_offset_ne {α : Type} (buf : List Nat) (offset : Nat)
    (s : State α) (hoff : offset ≠ 0) :
    write_led buf 1 offset s = (BT_GATT_ERR BT_ATT_ERR_INVALID_OFFSET, s) := by
  unfold write_led
  rw [if_neg (by decide), if_pos hoff]

theorem write_led_unregistered {α : Type} (buf : List Nat) (s : State α)
    (hcb : s.ECG_cb.led_cb = none) :
    write_led buf 1 0 s = (1, s) := by
  unfold write_led
  rw [if_neg (by decide), if_neg (by decide), hcb]
  rfl

theorem write_led_registered {α : Type} (buf : List Nat) (s : State α)
    (cb : Bool → α → α) (hcb : s.ECG_cb.led_cb = some cb) :
    write_led buf 1 0 s =
      if buf.headD 0 = 0 ∨ buf.headD 0 = 1 then
        (1, { s with app := cb (decide (buf.headD 0 ≠ 0)) s.app
                     led_calls := s.led_calls ++ [decide (buf.headD 0 ≠ 0)] })
      else (BT_GATT_ERR BT_ATT_ERR_VALUE_NOT_ALLOWED, s) := by
  unfold write_led
  rw [if_neg (by decide), if_neg (by decide), hcb]
  rfl

theorem ccc_writes_snoc {α : Type} (ws : List (Chr × Nat)) (w : Chr × Nat)
    (s : State α) :
    ccc_writes (ws ++ [w]) s = ccc_write w.1 w.2 (ccc_writes ws s) := by
  simp [ccc_writes, List.foldl_append]

theorem last_ccc_write_snoc (c : Chr) (ws : List (Chr × Nat)) (w : Chr × Nat) :
    last_ccc_write c (ws ++ [w])
      = if w.1 = c then some w.2 else last_ccc_write c ws := by
  unfold last_ccc_write
  rw [List.filter_append]
  by_cases h : w.1 = c
  · simp [List.filter_cons, h]
  · simp [List.filter_cons, h]

/-- The live flag after a sequence of writes is decided by the most recent
write for the live characteristic, and is the old flag when there is none. -/
theorem live_flag_after_writes {α : Type} (ws : List (Chr × Nat)) (s : State α) :
    (ccc_writes ws s).live_notify_enabled
      = match last_ccc_write Chr.live ws with
        | some v => decide (v = BT_GATT_CCC_NOTIFY)
        | none => s.live_notify_enabled := by
  induction ws using List.reverseRecOn with
  | nil => rfl
  | append_singleton ws w ih =>
    rw [ccc_writes_snoc, last_ccc_write_snoc]
    obtain ⟨c, v⟩ := w
    cases c <;> simp [ccc_write, ECG_cp_ccc_cfg_changed, ECG_live_ccc_cfg_changed,
      ECG_db_ccc_cfg_changed, ECG_motion_ccc_cfg_changed, ih]

/-- The db flag after a sequence of writes. -/
theorem db_flag_after_writes {α : Type} (ws : List (Chr × Nat)) (s : State α) :
    (ccc_writes ws s).db_notify_enabled
      = match last_ccc_write Chr.db ws with
        | some v => decide (v = BT_GATT_CCC_NOTIFY)
        | none => s.db_notify_enabled := by
  induction ws using List.reverseRecOn with
  | nil => rfl
  | append_singleton ws w ih =>
    rw [ccc_writes_snoc, last_ccc_write_snoc]
    obtain ⟨c, v⟩ := w
    cases c <;> simp [ccc_write, ECG_cp_ccc_cfg_changed, ECG_live_ccc_cfg_changed,
      ECG_db_ccc_cfg_changed, ECG_motion_ccc_cfg_changed, ih]

/-- The motion flag after a sequence of writes. -/
theorem motion_flag_after_writes {α : Type} (ws : List (Chr × Nat)) (s : State α) :
    (ccc_writes ws s).motion_notify_enabled
      = match last_ccc_write Chr.motion ws with
        | some v => decide (v = BT_GATT_CCC_NOTIFY)
        | none => s.motion_notify_enabled := by
  induction ws using List.reverseRecOn with
  | nil => rfl
  | append_singleton ws w ih =>
    rw [ccc_writes_snoc, last_ccc_write_snoc]
    obtain ⟨c, v⟩ := w
    cases c <;> simp [ccc_write, ECG_cp_ccc_cfg_changed, ECG_live_ccc_cfg_changed,
      ECG_db_ccc_cfg_changed, ECG_motion_ccc_cfg_changed, ih]

theorem bt_ECG_init_flags {α : Type} (callbacks : Option (bt_ECG_cb α)) (s : State α) :
    (bt_ECG_init callbacks s).2.live_notify_enabled = s.live_notify_enabled
      ∧ (bt_ECG_init callbacks s).2.db_notify_enabled = s.db_notify_enabled
      ∧ (bt_ECG_init callbacks s).2.motion_notify_enabled = s.motion_notify_enabled := by
  cases callbacks <;> exact ⟨rfl, rfl, rfl⟩

theorem snoc_ne_self {β : Type} (l : List β) (x : β) : l ++ [x] ≠ l := by
  intro h
  have hlen := congrArg List.length h
  simp at hlen

/-- A send that tests the flag `en` and then notifies on `attr` is gated by
`last` as soon as `en` is true exactly when `last` asks for Notify. -/
theorem send_gated_of_flag {α : Type} (tr : Transport) (attr v : Nat)
    (last : Option Nat) (s : State α) (en : Bool)
    (hen : en = true ↔ last = some BT_GATT_CCC_NOTIFY) :
    send_gated tr attr v last s
      (if ¬ en then (-EACCES, s) else bt_gatt_notify tr attr [v] s) := by
  unfold send_gated bt_gatt_notify
  cases hb : en
  · have hl : last ≠ some BT_GATT_CCC_NOTIFY := fun h => by
      rw [hen.mpr h] at hb; exact Bool.noConfusion hb
    simp [hl]
  · have hl : last = some BT_GATT_CCC_NOTIFY := hen.mp hb
    simp [hl, snoc_ne_self]

theorem hrs_notify_heartrate (s : HrState) (hlo : 90 ≤ s.heartrate)
    (hhi : s.heartrate < 160) :
    (hrs_notify s).heartrate = 90 + (s.heartrate - 90 + 1) % 70 := by
  simp only [hrs_notify]
  split <;> omega

/-- The counter after `n` ticks, for a counter inside its range. -/
theorem hrs_ticks_heartrate (n : Nat) (s : HrState) (hlo : 90 ≤ s.heartrate)
    (hhi : s.heartrate < 160) :
    (hrs_ticks n s).heartrate = 90 + (s.heartrate - 90 + n) % 70 := by
  induction n generalizing s with
  | zero => simp only [hrs_ticks]; omega
  | succ n ih =>
    simp only [hrs_ticks]
    have h := hrs_notify_heartrate s hlo hhi
    rw [ih (hrs_notify s) (by omega) (by omega), h]
    omega

/-- A `NULL` argument leaves the registered table as it is. -/
theorem bt_ECG_init_null {α : Type} (s : State α) :
    bt_ECG_init none s = (0, s) := rfl

/-! ## The control characteristic: `write_led` -/

/-- C1: a write to the control characteristic whose length is not 1 yields
the InvalidLength attribute error, whatever the buffer, the offset and the
registered callbacks are; the state is returned as it was, so the LED
callback is not invoked (no new entry in `led_calls`, `app` untouched). -/
theorem C1_write_led_invalid_length {α : Type} (buf : List Nat)
    (len offset : Nat) (s : State α) (hlen : len ≠ 1) :
    write_led buf len offset s
        = (BT_GATT_ERR BT_ATT_ERR_INVALID_ATTRIBUTE_LEN, s)
      ∧ (write_led buf len offset s).2.led_calls = s.led_calls := by
  rw [write_led_of_len_ne buf len offset s hlen]
  exact ⟨rfl, rfl⟩

/-- Witness of C1: two bytes written at offset 3 with the application's
callbacks registered. -/
theorem C1_write_led_invalid_length_witness :
    (2 : Nat) ≠ 1 ∧
      (write_led [1, 0] 2 3 started
          = (BT_GATT_ERR BT_ATT_ERR_INVALID_ATTRIBUTE_LEN, started)
        ∧ (write_led [1, 0] 2 3 started).2.led_calls = started.led_calls) :=
  ⟨by decide, C1_write_led_invalid_length [1, 0] 2 3 started (by decide)⟩

/-- C2: a write of length 1 at an offset other than 0 yields the
InvalidOffset attribute error, whatever the byte is (0x00 and 0x01
included) and whatever callbacks are registered; the state is returned as it
was, so the LED callback is not invoked. -/
theorem C2_write_led_invalid_offset {α : Type} (buf : List Nat)
    (offset : Nat) (s : State α) (hoff : offset ≠ 0) :
    write_led buf 1 offset s = (BT_GATT_ERR BT_ATT_ERR_INVALID_OFFSET, s)
      ∧ (write_led buf 1 offset s).2.led_calls = s.led_calls := by
  rw [write_led_of_offset_ne buf offset s hoff]
  exact ⟨rfl, rfl⟩

/-- Witness of C2: the valid byte 0x01 written at offset 4. -/
theorem C2_write_led_invalid_offset_witness :
    (4 : Nat) ≠ 0 ∧
      (write_led [1] 1 4 started = (BT_GATT_ERR BT_ATT_ERR_INVALID_OFFSET, started)
        ∧ (write_led [1] 1 4 started).2.led_calls = started.led_calls) :=
  ⟨by decide, C2_write_led_invalid_offset [1] 4 started (by decide)⟩

/-- C3: with an LED-set callback `cb` registered, a write of the single byte
`b`, `b` being 0x00 or 0x01, at offset 0 returns 1 and invokes `cb` exactly
once, with the boolean `b != 0`: the application state becomes
`cb (b != 0) app`, one entry `b != 0` is added to `led_calls`, and nothing
else changes. -/
theorem C3_write_led_success {α : Type} (b : Nat) (s : State α)
    (cb : Bool → α → α) (hcb : s.ECG_cb.led_cb = some cb)
    (hb : b = 0x00 ∨ b = 0x01) :
    write_led [b] 1 0 s =
      (1, { s with app := cb (decide (b ≠ 0)) s.app
                   led_calls := s.led_calls ++ [decide (b ≠ 0)] }) := by
  rw [write_led_registered [b] s cb hcb]
  simp only [List.headD_cons]
  rw [if_pos hb]

/-- Witness of C3: the byte 0x01 with the application's callbacks registered;
the user LED of the board ends up lit. -/
theorem C3_write_led_success_witness :
    started.ECG_cb.led_cb = some app_led_cb ∧ ((1 : Nat) = 0x00 ∨ (1 : Nat) = 0x01) ∧
      write_led [1] 1 0 started =
        (1, { started with app := app_led_cb (decide ((1 : Nat) ≠ 0)) started.app
                           led_calls := started.led_calls ++ [decide ((1 : Nat) ≠ 0)] }) :=
  ⟨rfl, by decide, C3_write_led_success 1 started app_led_cb rfl (by decide)⟩

/-- C4, as stated, fails: with no LED-set callback registered the byte 0x02
written with length 1 at offset 0 is accepted, the write returns 1 and not
the ValueNotAllowed error. -/
theorem C4_counterexample :
    (State.boot ()).ECG_cb.led_cb = none
      ∧ (write_led [2] 1 0 (State.boot ())).1 = 1
      ∧ (write_led [2] 1 0 (State.boot ())).1
          ≠ BT_GATT_ERR BT_ATT_ERR_VALUE_NOT_ALLOWED := by
  decide

/-- C4, amended: for a write of length 1 at offset 0 whose byte is neither
0x00 nor 0x01, the result is the ValueNotAllowed attribute error when an
LED-set callback is registered; when none is registered the write returns 1.
In both cases the state is returned as it was. -/
theorem C4_write_led_value_not_allowed {α : Type} (b : Nat) (s : State α)
    (hb0 : b ≠ 0x00) (hb1 : b ≠ 0x01) :
    (∀ cb, s.ECG_cb.led_cb = some cb →
        write_led [b] 1 0 s = (BT_GATT_ERR BT_ATT_ERR_VALUE_NOT_ALLOWED, s))
      ∧ (s.ECG_cb.led_cb = none → write_led [b] 1 0 s = (1, s)) := by
  refine ⟨fun cb hcb => ?_, fun hcb => write_led_unregistered [b] s hcb⟩
  rw [write_led_registered [b] s cb hcb]
  simp only [List.headD_cons]
  rw [if_neg (by omega)]

/-- Witness of C4 amended: the byte 0x07, once with the application's
callbacks registered and once on the freshly booted service. -/
theorem C4_write_led_value_not_allowed_witness :
    ((7 : Nat) ≠ 0x00 ∧ (7 : Nat) ≠ 0x01)
      ∧ (started.ECG_cb.led_cb = some app_led_cb
          ∧ write_led [7] 1 0 started
              = (BT_GATT_ERR BT_ATT_ERR_VALUE_NOT_ALLOWED, started))
      ∧ ((State.boot Main.boot).ECG_cb.led_cb = none
          ∧ write_led [7] 1 0 (State.boot Main.boot) = (1, State.boot Main.boot)) :=
  ⟨⟨by decide, by decide⟩,
   ⟨rfl, (C4_write_led_value_not_allowed 7 started (by decide) (by decide)).1
            app_led_cb rfl⟩,
   ⟨rfl, (C4_write_led_value_not_allowed 7 (State.boot Main.boot)
            (by decide) (by decide)).2 rfl⟩⟩

/-! ## Notification gating of the sends -/

/-- C5: after registration and any sequence `ws` of configuration-descriptor
writes, each of `send_live`, `send_db`, `send_motion` called with byte `v`
returns `-EACCES` without a transport call exactly when the most recent
configuration write for its characteristic did not request Notify (or there
was none); otherwise it calls the transport's notify exactly once, with the
one-byte payload `[v]` on its own attribute, and returns the transport's
answer unchanged. -/
theorem C5_send_gated_by_last_write {α : Type} (tr : Transport)
    (callbacks : Option (bt_ECG_cb α)) (app : α) (ws : List (Chr × Nat))
    (v : Nat) :
    send_gated tr 5 v (last_ccc_write Chr.live ws) (after_writes callbacks app ws)
        (bt_ECG_send_live_data tr v (after_writes callbacks app ws))
      ∧ send_gated tr 8 v (last_ccc_write Chr.db ws) (after_writes callbacks app ws)
        (bt_ECG_send_db_data tr v (after_writes callbacks app ws))
      ∧ send_gated tr 11 v (last_ccc_write Chr.motion ws)
        (after_writes callbacks app ws)
        (bt_ECG_send_motion_data tr v (after_writes callbacks app ws)) := by
  have hinit := bt_ECG_init_flags callbacks (State.boot app)
  refine ⟨?_, ?_, ?_⟩
  · apply send_gated_of_flag
    unfold after_writes
    rw [live_flag_after_writes, hinit.1]
    cases last_ccc_write Chr.live ws <;> simp [State.boot]
  · apply send_gated_of_flag
    unfold after_writes
    rw [db_flag_after_writes, hinit.2.1]
    cases last_ccc_write Chr.db ws <;> simp [State.boot]
  · apply send_gated_of_flag
    unfold after_writes
    rw [motion_flag_after_writes, hinit.2.2]
    cases last_ccc_write Chr.motion ws <;> simp [State.boot]

/-- Witness of C5, the scenario of the specification: the peer subscribes to
live with Notify and `send_live(5)` succeeds with the payload 0x05 on a
transport that accepts; the peer then writes mode None and `send_live(5)`
answers `-EACCES` with no further transport call. -/
theorem C5_send_gated_by_last_write_witness :
    bt_ECG_send_live_data (fun _ _ => 0) 5
        (after_writes (some ECG_callbacs) Main.boot [(Chr.live, BT_GATT_CCC_NOTIFY)])
      = (0, { after_writes (some ECG_callbacs) Main.boot
                [(Chr.live, BT_GATT_CCC_NOTIFY)] with
              notify_calls := [{ attr := 5, data := [5] }] })
    ∧ bt_ECG_send_live_data (fun _ _ => 0) 5
        (after_writes (some ECG_callbacs) Main.boot
          [(Chr.live, BT_GATT_CCC_NOTIFY), (Chr.live, 0)])
      = (-EACCES, after_writes (some ECG_callbacs) Main.boot
          [(Chr.live, BT_GATT_CCC_NOTIFY), (Chr.live, 0)]) :=
  ⟨(C5_send_gated_by_last_write (fun _ _ => 0) (some ECG_callbacs) Main.boot
      [(Chr.live, BT_GATT_CCC_NOTIFY)] 5).1.2.trans (if_pos (by decide)),
   (C5_send_gated_by_last_write (fun _ _ => 0) (some ECG_callbacs) Main.boot
      [(Chr.live, BT_GATT_CCC_NOTIFY), (Chr.live, 0)] 5).1.2.trans
      (if_neg (by decide))⟩

/-! ## Reads of the data characteristics -/

/-- C6: for each of live, db and motion, for every requested length and
offset (and whatever the transport's attribute read would do), a read while
the value-get callback of the characteristic is not registered returns 0,
copies no byte, and returns the state as it was, the cached value of the
characteristic included. -/
theorem C6_read_without_callback {α : Type} (bt_gatt_attr_read : AttrRead)
    (len offset : Nat) (s : State α) :
    (s.ECG_cb.live_data_cb = none →
        read_live bt_gatt_attr_read len offset s = ({ ret := 0, out := [] }, s)
          ∧ (read_live bt_gatt_attr_read len offset s).2.live_data = s.live_data)
      ∧ (s.ECG_cb.db_data_cb = none →
        read_db bt_gatt_attr_read len offset s = ({ ret := 0, out := [] }, s)
          ∧ (read_db bt_gatt_attr_read len offset s).2.db_data = s.db_data)
      ∧ (s.ECG_cb.motion_data_cb = none →
        read_motion bt_gatt_attr_read len offset s = ({ ret := 0, out := [] }, s)
          ∧ (read_motion bt_gatt_attr_read len offset s).2.motion_data
              = s.motion_data) := by
  refine ⟨fun h => ?_, fun h => ?_, fun h => ?_⟩
  · have e : read_live bt_gatt_attr_read len offset s
        = ({ ret := 0, out := [] }, s) := by
      unfold read_live; rw [h]
    rw [e]; exact ⟨rfl, rfl⟩
  · have e : read_db bt_gatt_attr_read len offset s
        = ({ ret := 0, out := [] }, s) := by
      unfold read_db; rw [h]
    rw [e]; exact ⟨rfl, rfl⟩
  · have e : read_motion bt_gatt_attr_read len offset s
        = ({ ret := 0, out := [] }, s) := by
      unfold read_motion; rw [h]
    rw [e]; exact ⟨rfl, rfl⟩

/-- Witness of C6: reads of 20 bytes at offset 3 on the freshly booted
service, where no callback is registered, against a transport read that
would answer an error. -/
theorem C6_read_without_callback_witness :
    ((State.boot Main.boot).ECG_cb.live_data_cb = none
        ∧ read_live (fun _ _ _ => { ret := -7, out := [] }) 20 3 (State.boot Main.boot)
            = ({ ret := 0, out := [] }, State.boot Main.boot))
      ∧ ((State.boot Main.boot).ECG_cb.db_data_cb = none
        ∧ read_db (fun _ _ _ => { ret := -7, out := [] }) 20 3 (State.boot Main.boot)
            = ({ ret := 0, out := [] }, State.boot Main.boot))
      ∧ ((State.boot Main.boot).ECG_cb.motion_data_cb = none
        ∧ read_motion (fun _ _ _ => { ret := -7, out := [] }) 20 3
            (State.boot Main.boot)
            = ({ ret := 0, out := [] }, State.boot Main.boot)) :=
  ⟨⟨rfl, ((C6_read_without_callback (fun _ _ _ => { ret := -7, out := [] }) 20 3
      (State.boot Main.boot)).1 rfl).1⟩,
   ⟨rfl, ((C6_read_without_callback (fun _ _ _ => { ret := -7, out := [] }) 20 3
      (State.boot Main.boot)).2.1 rfl).1⟩,
   ⟨rfl, ((C6_read_without_callback (fun _ _ _ => { ret := -7, out := [] }) 20 3
      (State.boot Main.boot)).2.2 rfl).1⟩⟩

/-! ## The heart-rate counter -/

/-- C7, as stated, fails: 71 calls of `hrs_notify` from the initial value 90
leave the counter at 91, not at 90. -/
theorem C7_counterexample :
    HrState.boot.heartrate = 90
      ∧ (hrs_ticks 71 HrState.boot).heartrate = 91
      ∧ (hrs_ticks 71 HrState.boot).heartrate ≠ 90 := by
  have h := hrs_ticks_heartrate 71 HrState.boot (by decide) (by decide)
  refine ⟨rfl, ?_, ?_⟩
  · rw [h]; decide
  · rw [h]; decide

/-- C7, amended: 70 calls of `hrs_notify` from the initial value 90 leave
the counter at 90 again (the values taken are 91, ..., 159, 90). -/
theorem C7_hrs_cycle_70 : (hrs_ticks 70 HrState.boot).heartrate = 90 := by
  rw [hrs_ticks_heartrate 70 HrState.boot (by decide) (by decide)]; decide

/-! ## Callback registration -/

/-- C8: for every state of the service (so every previously registered
table) and every callback set `cbs` passed to `bt_ECG_init`, the call returns
0 and the table afterwards is exactly `cbs` in all four roles, a role absent
in `cbs` being absent afterwards; nothing else of the state changes. -/
theorem C8_register_replaces {α : Type} (cbs : bt_ECG_cb α) (s : State α) :
    bt_ECG_init (some cbs) s = (0, { s with ECG_cb := cbs })
      ∧ (bt_ECG_init (some cbs) s).1 = 0
      ∧ (bt_ECG_init (some cbs) s).2.ECG_cb = cbs
      ∧ (bt_ECG_init (some cbs) s).2.ECG_cb.led_cb = cbs.led_cb
      ∧ (bt_ECG_init (some cbs) s).2.ECG_cb.live_data_cb = cbs.live_data_cb
      ∧ (bt_ECG_init (some cbs) s).2.ECG_cb.db_data_cb = cbs.db_data_cb
      ∧ (bt_ECG_init (some cbs) s).2.ECG_cb.motion_data_cb = cbs.motion_data_cb :=
  ⟨rfl, rfl, rfl, rfl, rfl, rfl, rfl⟩

/-! ## Connection events -/

/-- C9: `disconnected` leaves the four subscription flags as they were, and
so does a `disconnected` followed by a `connected`; in the state after the
two events each send answers as it would have before them: `-EACCES` with
the state untouched when its flag was false, one transport call with the
byte when its flag was true.  This holds in every state, in particular in
every state reached by configuration writes. -/
theorem C9_disconnect_keeps_subscriptions (s : State Main) (reason err : Nat)
    (tr : Transport) (v : Nat) :
    ((step s (Event.disconnected reason)).cp_indicate_enabled = s.cp_indicate_enabled
        ∧ (step s (Event.disconnected reason)).live_notify_enabled
            = s.live_notify_enabled
        ∧ (step s (Event.disconnected reason)).db_notify_enabled = s.db_notify_enabled
        ∧ (step s (Event.disconnected reason)).motion_notify_enabled
            = s.motion_notify_enabled)
      ∧ ((run [Event.disconnected reason, Event.connected err] s).cp_indicate_enabled
            = s.cp_indicate_enabled
        ∧ (run [Event.disconnected reason, Event.connected err] s).live_notify_enabled
            = s.live_notify_enabled
        ∧ (run [Event.disconnected reason, Event.connected err] s).db_notify_enabled
            = s.db_notify_enabled
        ∧ (run [Event.disconnected reason, Event.connected err] s).motion_notify_enabled
            = s.motion_notify_enabled)
      ∧ ((bt_ECG_send_live_data tr v
            (run [Event.disconnected reason, Event.connected err] s)).1
            = (bt_ECG_send_live_data tr v s).1
        ∧ (bt_ECG_send_live_data tr v
            (run [Event.disconnected reason, Event.connected err] s)).2.notify_calls
            = (bt_ECG_send_live_data tr v s).2.notify_calls
        ∧ (bt_ECG_send_live_data tr v
            (run [Event.disconnected reason, Event.connected err] s)).2.notify_calls
            = if s.live_notify_enabled then s.notify_calls ++ [{ attr := 5, data := [v] }]
              else s.notify_calls)
      ∧ ((bt_ECG_send_db_data tr v
            (run [Event.disconnected reason, Event.connected err] s)).1
            = (bt_ECG_send_db_data tr v s).1
        ∧ (bt_ECG_send_db_data tr v
            (run [Event.disconnected reason, Event.connected err] s)).2.notify_calls
            = (bt_ECG_send_db_data tr v s).2.notify_calls
        ∧ (bt_ECG_send_db_data tr v
            (run [Event.disconnected reason, Event.connected err] s)).2.notify_calls
            = if s.db_notify_enabled then s.notify_calls ++ [{ attr := 8, data := [v] }]
              else s.notify_calls)
      ∧ ((bt_ECG_send_motion_data tr v
            (run [Event.disconnected reason, Event.connected err] s)).1
            = (bt_ECG_send_motion_data tr v s).1
        ∧ (bt_ECG_send_motion_data tr v
            (run [Event.disconnected reason, Event.connected err] s)).2.notify_calls
            = (bt_ECG_send_motion_data tr v s).2.notify_calls
        ∧ (bt_ECG_send_motion_data tr v
            (run [Event.disconnected reason, Event.connected err] s)).2.notify_calls
            = if s.motion_notify_enabled then
                s.notify_calls ++ [{ attr := 11, data := [v] }]
              else s.notify_calls) := by
  refine ⟨⟨rfl, rfl, rfl, rfl⟩, ⟨rfl, rfl, rfl, rfl⟩, ?_, ?_, ?_⟩
  · cases h : s.live_notify_enabled <;>
      simp [bt_ECG_send_live_data, bt_gatt_notify, run, step, h]
  · cases h : s.db_notify_enabled <;>
      simp [bt_ECG_send_db_data, bt_gatt_notify, run, step, h]
  · cases h : s.motion_notify_enabled <;>
      simp [bt_ECG_send_motion_data, bt_gatt_notify, run, step, h]

/-- C10, as stated, fails: with the connection indicator lit, a `connected`
event reporting a failure (err = 1) leaves the indicator lit, not off. -/
theorem C10_counterexample :
    (dk_set_led_on CON_STATUS_LED Main.boot).leds CON_STATUS_LED = true
      ∧ (connected 1 (dk_set_led_on CON_STATUS_LED Main.boot)).leds CON_STATUS_LED
          = true
      ∧ (connected 1 (dk_set_led_on CON_STATUS_LED Main.boot)).leds CON_STATUS_LED
          ≠ false := by
  decide

/-- C10, amended: for every prior state of the board, `connected` with
err = 0 leaves the connection indicator on; `connected` with err != 0 leaves
the application state, the indicator included, as it was; `disconnected`
with any reason leaves the indicator off. -/
theorem C10_connection_indicator (m : Main) (err reason : Nat) :
    (connected 0 m).leds CON_STATUS_LED = true
      ∧ (err ≠ 0 → connected err m = m
          ∧ (connected err m).leds CON_STATUS_LED = m.leds CON_STATUS_LED)
      ∧ (disconnected reason m).leds CON_STATUS_LED = false := by
  refine ⟨?_, fun herr => ?_, ?_⟩
  · simp [connected, dk_set_led_on, dk_set_led]
  · have e : connected err m = m := by
      unfold connected; rw [if_pos herr]
    rw [e]; exact ⟨rfl, rfl⟩
  · simp [disconnected, dk_set_led_off, dk_set_led]

/-- Witness of C10 amended: a failed connection (err = 62) on the freshly
booted board, whose indicator is off and stays off. -/
theorem C10_connection_indicator_witness :
    (62 : Nat) ≠ 0
      ∧ (connected 62 Main.boot = Main.boot
        ∧ (connected 62 Main.boot).leds CON_STATUS_LED
            = Main.boot.leds CON_STATUS_LED) :=
  ⟨by decide, (C10_connection_indicator Main.boot 62 0).2.1 (by decide)⟩

end Spatch
